import Mathlib

/-!
Verification development for `src/python/analyzer.py`: a JSON-Lines
transcript analyzer that loads records line by line, counts messages by
role, and renders a fixed Markdown summary.

The embedding is shallow: each Python function is translated into an
executable Lean definition.  Python exceptions are modelled with
`Except PyErr`; the filesystem touched by `main` is modelled as an
association list from path strings to file contents.
-/

set_option autoImplicit false

namespace Analyzer

/-- A parsed JSON value, as produced by Python's `json.loads`.
Numbers keep their source lexeme (their numeric value is never inspected
by the analyzer); objects keep their key/value pairs in source order,
with lookups taking the last occurrence of a key, matching the
last-wins behaviour of duplicate keys in a Python `dict`. -/
inductive Json where
  | null : Json
  | bool : Bool → Json
  | num : String → Json
  | str : String → Json
  | arr : List Json → Json
  | obj : List (String × Json) → Json
deriving Repr

/-- The one Python exception class the analyzer can raise at the
summarize stage: calling `.get` on a value that is not a `dict`. -/
inductive PyErr where
  | attributeError : PyErr
deriving Repr, DecidableEq

/-- JSON grammar whitespace (the only characters `json.loads` skips
between tokens): space, tab, line feed, carriage return. -/
def jsonWs (c : Char) : Bool :=
  c = ' ' || c = '\t' || c = '\n' || c = '\r'

/-- Drop leading JSON whitespace. -/
def skipWs (cs : List Char) : List Char :=
  cs.dropWhile jsonWs

/-- Value of a hexadecimal digit, as used by `\uXXXX` string escapes. -/
def hexVal (c : Char) : Option Nat :=
  if '0' ≤ c ∧ c ≤ '9' then some (c.toNat - 48)
  else if 'a' ≤ c ∧ c ≤ 'f' then some (c.toNat - 87)
  else if 'A' ≤ c ∧ c ≤ 'F' then some (c.toNat - 55)
  else none

/-- ASCII decimal digit test used by the number grammar. -/
def isDig (c : Char) : Bool :=
  '0' ≤ c && c ≤ '9'

/-- Parse the body of a JSON string after the opening quote, returning
the decoded characters and the input remaining after the closing quote.
Models Python's strict mode: an unescaped control character (below
`0x20`) is an error.  `\uXXXX` escapes are decoded, combining a high
surrogate followed by `\uXXXX` with a low surrogate into one scalar;
a lone surrogate (which Python would keep in its string) has no `Char`
counterpart and is approximated by `Char.ofNat`'s fallback.
Fuel is decremented at least once per input character consumed, so
`cs.length + 1` fuel always suffices. -/
def parseStrChars : Nat → List Char → Option (List Char × List Char)
  | 0, _ => none
  | _ + 1, [] => none
  | fuel + 1, c :: rest =>
    if c = '"' then
      some ([], rest)
    else if c = '\\' then
      match rest with
      | [] => none
      | e :: rest2 =>
        if e = '"' then (parseStrChars fuel rest2).map (fun p => ('"' :: p.1, p.2))
        else if e = '\\' then (parseStrChars fuel rest2).map (fun p => ('\\' :: p.1, p.2))
        else if e = '/' then (parseStrChars fuel rest2).map (fun p => ('/' :: p.1, p.2))
        else if e = 'b' then (parseStrChars fuel rest2).map (fun p => ('\x08' :: p.1, p.2))
        else if e = 'f' then (parseStrChars fuel rest2).map (fun p => ('\x0c' :: p.1, p.2))
        else if e = 'n' then (parseStrChars fuel rest2).map (fun p => ('\n' :: p.1, p.2))
        else if e = 'r' then (parseStrChars fuel rest2).map (fun p => ('\r' :: p.1, p.2))
        else if e = 't' then (parseStrChars fuel rest2).map (fun p => ('\t' :: p.1, p.2))
        else if e = 'u' then
          match rest2 with
          | h1 :: h2 :: h3 :: h4 :: rest3 =>
            match hexVal h1, hexVal h2, hexVal h3, hexVal h4 with
            | some a, some b, some c2, some d =>
              let n := ((a * 16 + b) * 16 + c2) * 16 + d
              if 0xd800 ≤ n ∧ n ≤ 0xdbff then
                match rest3 with
                | '\\' :: 'u' :: g1 :: g2 :: g3 :: g4 :: rest4 =>
                  match hexVal g1, hexVal g2, hexVal g3, hexVal g4 with
                  | some a2, some b2, some c3, some d2 =>
                    let m := ((a2 * 16 + b2) * 16 + c3) * 16 + d2
                    if 0xdc00 ≤ m ∧ m ≤ 0xdfff then
                      let cp := 0x10000 + (n - 0xd800) * 0x400 + (m - 0xdc00)
                      (parseStrChars fuel rest4).map (fun p => (Char.ofNat cp :: p.1, p.2))
                    else
                      (parseStrChars fuel rest3).map (fun p => (Char.ofNat n :: p.1, p.2))
                  | _, _, _, _ =>
                    (parseStrChars fuel rest3).map (fun p => (Char.ofNat n :: p.1, p.2))
                | _ =>
                  (parseStrChars fuel rest3).map (fun p => (Char.ofNat n :: p.1, p.2))
              else
                (parseStrChars fuel rest3).map (fun p => (Char.ofNat n :: p.1, p.2))
            | _, _, _, _ => none
          | _ => none
        else none
    else if c.toNat < 0x20 then none
    else (parseStrChars fuel rest).map (fun p => (c :: p.1, p.2))

/-- Parse one or more decimal digits; `none` when the input does not
start with a digit.  Returns the digits and the remaining input. -/
def parseDigs (cs : List Char) : Option (List Char × List Char) :=
  match cs.span isDig with
  | ([], _) => none
  | (ds, rest) => some (ds, rest)

/-- Parse the integer part of a JSON number (`0` or a nonzero digit
followed by digits), returning its lexeme characters. -/
def parseIntPart (cs : List Char) : Option (List Char × List Char) :=
  match cs with
  | '0' :: rest => some (['0'], rest)
  | c :: _ =>
    if isDig c then parseDigs cs else none
  | [] => none

/-- Parse the optional fraction part (`.` followed by digits). -/
def parseFracPart (cs : List Char) : Option (List Char × List Char) :=
  match cs with
  | '.' :: rest =>
    match parseDigs rest with
    | some (ds, rest2) => some ('.' :: ds, rest2)
    | none => none
  | _ => some ([], cs)

/-- Parse the optional exponent part (`e`/`E`, optional sign, digits). -/
def parseExpPart (cs : List Char) : Option (List Char × List Char) :=
  match cs with
  | c :: rest =>
    if c = 'e' || c = 'E' then
      match rest with
      | s :: rest2 =>
        if s = '+' || s = '-' then
          match parseDigs rest2 with
          | some (ds, rest3) => some (c :: s :: ds, rest3)
          | none => none
        else
          match parseDigs rest with
          | some (ds, rest3) => some (c :: ds, rest3)
          | none => none
      | [] => none
    else some ([], cs)
  | [] => some ([], cs)

/-- Parse a JSON number starting at `cs` (an optional `-` sign was not
yet consumed), returning its lexeme. -/
def parseNum (cs : List Char) : Option (List Char × List Char) :=
  let (sign, cs1) :=
    match cs with
    | '-' :: rest => (['-'], rest)
    | _ => (([] : List Char), cs)
  match parseIntPart cs1 with
  | none => none
  | some (ip, cs2) =>
    match parseFracPart cs2 with
    | none => none
    | some (fp, cs3) =>
      match parseExpPart cs3 with
      | none => none
      | some (ep, cs4) => some (sign ++ ip ++ fp ++ ep, cs4)

mutual

/-- Parse one JSON value, mirroring what Python's `json.loads` accepts
(including the non-standard `NaN`, `Infinity` and `-Infinity` that
Python allows by default).  Fuel-indexed; every recursive call consumes
at least one input character first, so `cs.length + 1` fuel suffices. -/
def parseVal : Nat → List Char → Option (Json × List Char)
  | 0, _ => none
  | fuel + 1, cs0 =>
    match skipWs cs0 with
    | [] => none
    | c :: rest =>
      if c = '"' then
        (parseStrChars (rest.length + 1) rest).map (fun p => (Json.str ⟨p.1⟩, p.2))
      else if c = '[' then
        match skipWs rest with
        | ']' :: rest2 => some (Json.arr [], rest2)
        | rest2 =>
          match parseElems fuel rest2 with
          | some (vs, rest3) =>
            match skipWs rest3 with
            | ']' :: rest4 => some (Json.arr vs, rest4)
            | _ => none
          | none => none
      else if c = '\x7b' then
        match skipWs rest with
        | '\x7d' :: rest2 => some (Json.obj [], rest2)
        | rest2 =>
          match parseMembers fuel rest2 with
          | some (kvs, rest3) =>
            match skipWs rest3 with
            | '\x7d' :: rest4 => some (Json.obj kvs, rest4)
            | _ => none
          | none => none
      else
        match c :: rest with
        | 't' :: 'r' :: 'u' :: 'e' :: rest2 => some (Json.bool true, rest2)
        | 'f' :: 'a' :: 'l' :: 's' :: 'e' :: rest2 => some (Json.bool false, rest2)
        | 'n' :: 'u' :: 'l' :: 'l' :: rest2 => some (Json.null, rest2)
        | 'N' :: 'a' :: 'N' :: rest2 => some (Json.num "NaN", rest2)
        | 'I' :: 'n' :: 'f' :: 'i' :: 'n' :: 'i' :: 't' :: 'y' :: rest2 =>
          some (Json.num "Infinity", rest2)
        | '-' :: 'I' :: 'n' :: 'f' :: 'i' :: 'n' :: 'i' :: 't' :: 'y' :: rest2 =>
          some (Json.num "-Infinity", rest2)
        | cs =>
          match parseNum cs with
          | some (lex, rest2) => some (Json.num ⟨lex⟩, rest2)
          | none => none

/-- Parse a comma-separated list of array elements (at least one). -/
def parseElems : Nat → List Char → Option (List Json × List Char)
  | 0, _ => none
  | fuel + 1, cs =>
    match parseVal fuel cs with
    | none => none
    | some (v, rest) =>
      match skipWs rest with
      | ',' :: rest2 =>
        match parseElems fuel rest2 with
        | some (vs, rest3) => some (v :: vs, rest3)
        | none => none
      | rest2 => some ([v], rest2)

/-- Parse a comma-separated list of object members (at least one):
a string key, a colon, a value. -/
def parseMembers : Nat → List Char → Option (List (String × Json) × List Char)
  | 0, _ => none
  | fuel + 1, cs =>
    match skipWs cs with
    | '"' :: rest =>
      match parseStrChars (rest.length + 1) rest with
      | none => none
      | some (kcs, rest2) =>
        match skipWs rest2 with
        | ':' :: rest3 =>
          match parseVal fuel rest3 with
          | none => none
          | some (v, rest4) =>
            match skipWs rest4 with
            | ',' :: rest5 =>
              match parseMembers fuel rest5 with
              | some (kvs, rest6) => some ((⟨kcs⟩, v) :: kvs, rest6)
              | none => none
            | rest5 => some ([(⟨kcs⟩, v)], rest5)
        | _ => none
    | _ => none

end

/-- Model of Python's `json.loads` on one line of input: parse exactly
one JSON value, allowing surrounding whitespace; anything left over is
a `JSONDecodeError`, modelled as `none`. -/
def json_loads (s : String) : Option Json :=
  match parseVal (s.data.length + 1) s.data with
  | some (v, rest) => if skipWs rest = [] then some v else none
  | none => none

/-- Characters removed by Python's `str.strip()` with no argument:
exactly the characters for which `str.isspace()` holds. -/
def pyIsSpace (c : Char) : Bool :=
  (0x09 ≤ c.toNat && c.toNat ≤ 0x0d) || c = ' ' ||
  (0x1c ≤ c.toNat && c.toNat ≤ 0x1f) ||
  c.toNat = 0x85 || c.toNat = 0xa0 || c.toNat = 0x1680 ||
  (0x2000 ≤ c.toNat && c.toNat ≤ 0x200a) ||
  c.toNat = 0x2028 || c.toNat = 0x2029 || c.toNat = 0x202f ||
  c.toNat = 0x205f || c.toNat = 0x3000

/-- Model of Python's `str.strip()`: drop leading and trailing
whitespace characters. -/
def pyStrip (s : String) : String :=
  ⟨((s.data.dropWhile pyIsSpace).reverse.dropWhile pyIsSpace).reverse⟩

/-- Translate `\r\n` and bare `\r` to `\n`, as Python's universal
newlines do when a file is opened in text mode. -/
def normNewlines : List Char → List Char
  | [] => []
  | '\r' :: '\n' :: rest => '\n' :: normNewlines rest
  | '\r' :: rest => '\n' :: normNewlines rest
  | c :: rest => c :: normNewlines rest

/-- Split on `'\n'`.  Always returns at least one (possibly empty)
segment. -/
def splitNl : List Char → List (List Char)
  | [] => [[]]
  | '\n' :: rest => [] :: splitNl rest
  | c :: rest =>
    match splitNl rest with
    | [] => [[c]]
    | l :: ls => (c :: l) :: ls

/-- The sequence of lines `for line in f` iterates over, modulo line
terminators, which `line.strip()` removes anyway.  (File iteration
yields each line with its terminator attached and omits a final empty
segment after a trailing newline; since the loader strips every line
and skips blank ones, splitting on newlines is observationally
equivalent.) -/
def pySplitLines (s : String) : List String :=
  (splitNl (normNewlines s.data)).map (fun l => ⟨l⟩)

/-- The loader's loop: `messages` is the accumulator list the Python
code appends to.  Each line is stripped; blank lines are skipped;
lines that fail `json.loads` are skipped silently. -/
def loadLoop (acc : List Json) : List String → List Json
  | [] => acc
  | line :: rest =>
    let l := pyStrip line
    if l = "" then loadLoop acc rest
    else
      match json_loads l with
      | some v => loadLoop (acc ++ [v]) rest
      | none => loadLoop acc rest

/-- `load_messages` from `analyzer.py`, over the file's lines. -/
def load_messages (lines : List String) : List Json :=
  loadLoop [] lines

/-- Look a key up in an object's member list, taking the LAST binding:
`json.loads` builds a `dict`, where a duplicate key overwrites the
earlier value. -/
def lookupLastKey (kvs : List (String × Json)) (k : String) : Option Json :=
  match kvs with
  | [] => none
  | (k0, v0) :: rest =>
    match lookupLastKey rest k with
    | some v => some v
    | none => if k0 = k then some v0 else none

/-- Python's `m.get(key, default)`: a `dict` lookup with a default, but
an `AttributeError` when `m` is any other value (only `dict` has
`.get`). -/
def pyGetD (m : Json) (k : String) (d : Json) : Except PyErr Json :=
  match m with
  | Json.obj kvs => Except.ok ((lookupLastKey kvs k).getD d)
  | _ => Except.error PyErr.attributeError

mutual

/-- Python's `repr()` on values produced by `json.loads`, used when a
container ends up inside an f-string.  Strings are rendered between
single quotes without re-escaping and numbers by their source lexeme;
both are close approximations (Python escapes special characters and
reformats floats), and neither case is reachable in any claim below. -/
def pyRepr : Json → String
  | Json.null => "None"
  | Json.bool true => "True"
  | Json.bool false => "False"
  | Json.num lex => lex
  | Json.str s => "\x27" ++ s ++ "\x27"
  | Json.arr xs => "[" ++ pyReprElems xs ++ "]"
  | Json.obj kvs => "\x7b" ++ pyReprKvs kvs ++ "\x7d"

/-- Comma-separated `repr`s of list elements. -/
def pyReprElems : List Json → String
  | [] => ""
  | [x] => pyRepr x
  | x :: y :: rest => pyRepr x ++ ", " ++ pyReprElems (y :: rest)

/-- Comma-separated `repr`s of dict members. -/
def pyReprKvs : List (String × Json) → String
  | [] => ""
  | [(k, v)] => "\x27" ++ k ++ "\x27: " ++ pyRepr v
  | (k, v) :: p :: rest =>
    "\x27" ++ k ++ "\x27: " ++ pyRepr v ++ ", " ++ pyReprKvs (p :: rest)

end

/-- Python's `str()` as applied by an f-string: a string renders as
itself; every other value renders as its `repr`. -/
def pyStr : Json → String
  | Json.str s => s
  | Json.null => pyRepr Json.null
  | Json.bool b => pyRepr (Json.bool b)
  | Json.num lex => pyRepr (Json.num lex)
  | Json.arr xs => pyRepr (Json.arr xs)
  | Json.obj kvs => pyRepr (Json.obj kvs)

/-- Python `==` between a JSON value and a string literal: true exactly
when the value is that string (no other `json.loads` result compares
equal to a `str`). -/
def jsonEqStr (v : Json) (t : String) : Bool :=
  match v with
  | Json.str s => s = t
  | _ => false

/-- `sum(1 for m in messages if m.get("role") == role)`: walks the
sequence, raising `AttributeError` at the first non-dict element. -/
def countRoleM (messages : List Json) (role : String) : Except PyErr Nat :=
  match messages with
  | [] => Except.ok 0
  | m :: rest =>
    match pyGetD m "role" Json.null with
    | Except.error e => Except.error e
    | Except.ok v =>
      match countRoleM rest role with
      | Except.error e => Except.error e
      | Except.ok n => Except.ok ((if jsonEqStr v role then 1 else 0) + n)

/-- `summarize` from `analyzer.py`.  The empty case returns the fixed
one-line message; otherwise the first and last texts are fetched with
`.get("text", "")` (the Python source guards each with
`if messages else ""`, which is dead code after the `total == 0`
check), the two role counts are taken, and the fixed template is
rendered.  Any `.get` on a non-dict record raises, modelled as
`Except.error`. -/
def summarize (messages : List Json) : Except PyErr String :=
  if messages.length = 0 then
    Except.ok "# Analysis\n\nNo messages found."
  else
    match pyGetD (messages.headD Json.null) "text" (Json.str "") with
    | Except.error e => Except.error e
    | Except.ok firstV =>
      match pyGetD (messages.getLastD Json.null) "text" (Json.str "") with
      | Except.error e => Except.error e
      | Except.ok lastV =>
        match countRoleM messages "user" with
        | Except.error e => Except.error e
        | Except.ok users =>
          match countRoleM messages "char" with
          | Except.error e => Except.error e
          | Except.ok chars =>
            Except.ok
              ("# Analysis\n\n" ++
               "Total messages: " ++ toString messages.length ++ "\n\n" ++
               "User messages: " ++ toString users ++ "\n" ++
               "Character messages: " ++ toString chars ++ "\n\n" ++
               "## First message\n" ++ pyStr firstV ++ "\n\n" ++
               "## Last message\n" ++ pyStr lastV ++ "\n")

/-! ### The CLI (`main`) and its filesystem model -/

/-- The filesystem visible to one run: an association list from path
strings to file contents. -/
def FS : Type := List (String × String)

/-- Content at a path, when the file exists. -/
def fsLookup (fs : FS) (p : String) : Option String :=
  match fs with
  | [] => none
  | (q, t) :: rest => if q = p then some t else fsLookup rest p

/-- Write a file: replace the content at an existing path, or add the
path.  Models `Path.write_text`, which overwrites without warning. -/
def fsWrite (fs : FS) (p : String) (s : String) : FS :=
  match fs with
  | [] => [(p, s)]
  | (q, t) :: rest => if q = p then (p, s) :: rest else (q, t) :: fsWrite rest p s

/-- `Path(p).parent` as a string: everything before the last slash;
`"."` when there is no slash, `"/"` for a file at the root. -/
def parentDir (p : String) : String :=
  match (p.data.reverse.dropWhile (fun c => c ≠ '/')) with
  | [] => "."
  | ['/'] => "/"
  | '/' :: rest => ⟨rest.reverse⟩
  | rest => ⟨rest.reverse⟩

/-- `str(Path(d) / name)`. -/
def joinPath (d : String) (name : String) : String :=
  if d = "." then name
  else if d = "/" then "/" ++ name
  else d ++ "/" ++ name

/-- Everything one run of `main` leaves behind: the filesystem, the
lines printed to standard output, and the exit status. -/
structure RunResult where
  fs : FS
  stdout : List String
  exitCode : Nat

/-- `main` from `analyzer.py`.  `expand` models
`Path.expanduser` (whose result depends on the `HOME` environment,
outside this program); `argv` is the full `sys.argv`, program name
included; `fs` is the filesystem at the start of the run.  An uncaught
Python exception (a non-dict record reaching `.get`) aborts the run
without writing, modelled as `Except.error`. -/
def pymain (expand : String → String) (argv : List String) (fs : FS) :
    Except PyErr RunResult :=
  if argv.length < 2 then
    Except.ok ⟨fs, ["Usage: python analyzer.py <transcript.jsonl>"], 1⟩
  else
    let jsonl_path := expand (argv.getD 1 "")
    match fsLookup fs jsonl_path with
    | none => Except.ok ⟨fs, ["File not found: " ++ jsonl_path], 2⟩
    | some content =>
      match summarize (load_messages (pySplitLines content)) with
      | Except.error e => Except.error e
      | Except.ok summary =>
        let summary_path := joinPath (parentDir jsonl_path) "summary.md"
        Except.ok
          ⟨fsWrite fs summary_path summary,
           ["Wrote summary to " ++ summary_path], 0⟩

/-! ### Derived notions named by the specification -/

/-- Is this value a JSON object (a Python `dict`)?  The spec's Record
is "an arbitrary mapping from string keys to JSON values". -/
def Json.isObj : Json → Bool
  | Json.obj _ => true
  | _ => false

/-- The spec's per-line processing rule, as a single declarative step:
a blank line (after stripping) yields nothing, otherwise the stripped
line's parse result (or nothing when parsing fails). -/
def lineParse (line : String) : Option Json :=
  if pyStrip line = "" then none else json_loads (pyStrip line)

/-- The spec's "non-blank, JSON-parseable line". -/
def parseableLine (line : String) : Bool :=
  (pyStrip line != "") && (json_loads (pyStrip line)).isSome

/-- Does a record's `role` field string-equal the given value?  A
record with a missing `role`, a non-string `role`, or that is not an
object at all, does not match. -/
def roleIs (role : String) (m : Json) : Bool :=
  match m with
  | Json.obj kvs => jsonEqStr ((lookupLastKey kvs "role").getD Json.null) role
  | _ => false

/-- The record's `text` field, when the record is an object that has
one. -/
def textField (m : Json) : Option Json :=
  match m with
  | Json.obj kvs => lookupLastKey kvs "text"
  | _ => none

/-- The value `m.get("text", "")` returns on an object: the `text`
field, or the empty string when it is absent. -/
def textDefault (m : Json) : Json :=
  match m with
  | Json.obj kvs => (lookupLastKey kvs "text").getD (Json.str "")
  | _ => Json.str ""

/-! ### Loader lemmas -/

theorem loadLoop_eq (lines : List String) :
    ∀ acc : List Json, loadLoop acc lines = acc ++ loadLoop [] lines := by
  induction lines with
  | nil => intro acc; simp [loadLoop]
  | cons line rest ih =>
    intro acc
    by_cases h : pyStrip line = ""
    · simp [loadLoop, h, ih acc]
    · cases hj : json_loads (pyStrip line) with
      | none => simp [loadLoop, h, hj, ih acc]
      | some v => simp [loadLoop, h, hj, ih (acc ++ [v]), ih [v]]

theorem loadLoop_nil_eq (lines : List String) :
    loadLoop [] lines = lines.filterMap lineParse := by
  induction lines with
  | nil => rfl
  | cons line rest ih =>
    by_cases h : pyStrip line = ""
    · simp [loadLoop, h, List.filterMap_cons, lineParse, ih]
    · cases hj : json_loads (pyStrip line) with
      | none => simp [loadLoop, h, hj, List.filterMap_cons, lineParse, ih]
      | some v =>
        simp [loadLoop, h, hj, List.filterMap_cons, lineParse, loadLoop_eq rest [v], ih]

theorem length_filterMap_countP {α β : Type} (f : α → Option β) (l : List α) :
    (l.filterMap f).length = l.countP (fun a => (f a).isSome) := by
  induction l with
  | nil => rfl
  | cons a l ih => cases h : f a <;> simp [List.filterMap_cons, h, List.countP_cons, ih]

theorem lineParse_isSome (l : String) : (lineParse l).isSome = parseableLine l := by
  by_cases h : pyStrip l = "" <;> simp [lineParse, parseableLine, h]

/-! ### Summarizer lemmas -/

theorem headD_mem {α : Type} (l : List α) (d : α) (h : l ≠ []) : l.headD d ∈ l := by
  cases l with
  | nil => exact absurd rfl h
  | cons a t => exact List.mem_cons_self a t

theorem getLastD_mem {α : Type} : ∀ (l : List α) (d : α), l ≠ [] → l.getLastD d ∈ l := by
  intro l
  induction l with
  | nil => intro d h; exact absurd rfl h
  | cons a t ih =>
    intro d _
    rw [List.getLastD_cons]
    cases t with
    | nil => simp [List.getLastD]
    | cons b u => exact List.mem_cons_of_mem a (ih a (by simp))

theorem pyGetD_text (m : Json) (h : m.isObj = true) :
    pyGetD m "text" (Json.str "") = Except.ok (textDefault m) := by
  cases m <;> simp_all [Json.isObj, pyGetD, textDefault]

theorem countRoleM_ok (msgs : List Json) (role : String)
    (h : ∀ m ∈ msgs, m.isObj = true) :
    countRoleM msgs role = Except.ok (msgs.countP (roleIs role)) := by
  induction msgs with
  | nil => rfl
  | cons m rest ih =>
    have hm : m.isObj = true := h m (List.mem_cons_self m rest)
    have hrest : ∀ x ∈ rest, x.isObj = true := fun x hx => h x (List.mem_cons_of_mem _ hx)
    cases m with
    | obj kvs => simp [countRoleM, pyGetD, ih hrest, List.countP_cons, roleIs, Nat.add_comm]
    | null => simp [Json.isObj] at hm
    | bool b => simp [Json.isObj] at hm
    | num s => simp [Json.isObj] at hm
    | str s => simp [Json.isObj] at hm
    | arr xs => simp [Json.isObj] at hm

theorem summarize_obj (msgs : List Json) (hne : msgs ≠ [])
    (hobj : ∀ m ∈ msgs, m.isObj = true) :
    summarize msgs = Except.ok
      ("# Analysis\n\n" ++
       "Total messages: " ++ toString msgs.length ++ "\n\n" ++
       "User messages: " ++ toString (msgs.countP (roleIs "user")) ++ "\n" ++
       "Character messages: " ++ toString (msgs.countP (roleIs "char")) ++ "\n\n" ++
       "## First message\n" ++ pyStr (textDefault (msgs.headD Json.null)) ++ "\n\n" ++
       "## Last message\n" ++ pyStr (textDefault (msgs.getLastD Json.null)) ++ "\n") := by
  have h0 : ¬ msgs.length = 0 := fun h => hne (List.length_eq_zero.mp h)
  have hh := pyGetD_text _ (hobj _ (headD_mem msgs Json.null hne))
  have hl := pyGetD_text _ (hobj _ (getLastD_mem msgs Json.null hne))
  simp only [List.headD_eq_head?, List.getLastD_eq_getLast?] at hh hl
  simp [summarize, h0, hh, hl, countRoleM_ok msgs "user" hobj, countRoleM_ok msgs "char" hobj]

/-! ### Stripping lemmas -/

theorem dropWhile_append_all {p : Char → Bool} :
    ∀ (xs ys : List Char), (∀ c ∈ xs, p c = true) →
      (xs ++ ys).dropWhile p = ys.dropWhile p := by
  intro xs
  induction xs with
  | nil => intro ys _; rfl
  | cons c xs ih =>
    intro ys h
    simp only [List.cons_append, List.dropWhile_cons, h c (List.mem_cons_self c xs),
      if_pos rfl]
    exact ih ys (fun a ha => h a (List.mem_cons_of_mem _ ha))

theorem dropWhile_append_cases {p : Char → Bool} :
    ∀ (ys zs : List Char),
      (ys ++ zs).dropWhile p = ys.dropWhile p ++ zs ∨
      (ys.dropWhile p = [] ∧ (ys ++ zs).dropWhile p = zs.dropWhile p) := by
  intro ys zs
  induction ys with
  | nil => right; exact ⟨rfl, rfl⟩
  | cons c ys ih =>
    by_cases h : p c
    · rcases ih with h1 | ⟨h2, h3⟩
      · left; simp [List.dropWhile_cons, h, h1]
      · right; simp [List.dropWhile_cons, h, h2, h3]
    · left; simp [List.dropWhile_cons, h]

theorem pyStrip_pad (w1 w2 l : String)
    (h1 : ∀ c ∈ w1.data, pyIsSpace c = true)
    (h2 : ∀ c ∈ w2.data, pyIsSpace c = true) :
    pyStrip (w1 ++ l ++ w2) = pyStrip l := by
  show String.mk _ = String.mk _
  congr 1
  have hd : (w1 ++ l ++ w2).data = w1.data ++ (l.data ++ w2.data) := by
    rw [String.data_append, String.data_append, List.append_assoc]
  rw [hd, dropWhile_append_all w1.data (l.data ++ w2.data) h1]
  rcases dropWhile_append_cases (p := pyIsSpace) l.data w2.data with hc | ⟨hnil, hc⟩
  · rw [hc, List.reverse_append,
      dropWhile_append_all w2.data.reverse (l.data.dropWhile pyIsSpace).reverse
        (fun c hcm => h2 c (List.mem_reverse.mp hcm))]
  · rw [hc, hnil, List.dropWhile_eq_nil_iff.mpr (fun c hcm => h2 c hcm)]

/-! ### Filesystem lemmas -/

theorem fsLookup_fsWrite_self (fs : FS) (p s : String) :
    fsLookup (fsWrite fs p s) p = some s := by
  induction fs with
  | nil => simp [fsWrite, fsLookup]
  | cons kv fs ih =>
    obtain ⟨q, t⟩ := kv
    by_cases h : q = p <;> simp [fsWrite, fsLookup, h, ih]

theorem fsWrite_fsWrite_self (fs : FS) (p s : String) :
    fsWrite (fsWrite fs p s) p s = fsWrite fs p s := by
  induction fs with
  | nil => simp [fsWrite]
  | cons kv fs ih =>
    obtain ⟨q, t⟩ := kv
    by_cases h : q = p <;> simp [fsWrite, h, ih]

theorem pyStr_textDefault_none (m : Json) (h : textField m = none) :
    pyStr (textDefault m) = "" := by
  cases m <;> simp_all [textField, textDefault, pyStr]

theorem pyStr_textDefault_some (m : Json) (t : String)
    (h : textField m = some (Json.str t)) : pyStr (textDefault m) = t := by
  cases m <;> simp_all [textField, textDefault, pyStr]

/-! ### Claims -/

/-- C2: the loader returns exactly the JSON values of the non-blank
lines that parse, in original line order; a whitespace-only line is
skipped, a non-blank line that fails to parse is skipped silently (the
loader is total, it cannot raise), and skipped lines leave no
placeholder in the result. -/
theorem load_messages_filterMap (lines : List String) :
    load_messages lines = lines.filterMap lineParse :=
  loadLoop_nil_eq lines

/-- C1: the number of loaded records equals the number of non-blank,
JSON-parseable lines, and (for a non-empty transcript of objects) the
rendered summary contains the full lines `Total messages: N`,
`User messages: U` and `Character messages: C`, where `U` and `C`
count exactly the records whose `role` field string-equals `"user"`
and `"char"` respectively. -/
theorem load_count_and_render_counts (lines : List String) :
    (load_messages lines).length = lines.countP parseableLine
    ∧ (load_messages lines ≠ [] →
        (∀ m ∈ load_messages lines, m.isObj = true) →
        ∃ pre post : String, summarize (load_messages lines) = Except.ok
          (pre ++
           ("Total messages: " ++ toString (load_messages lines).length ++ "\n\n" ++
            "User messages: " ++
              toString ((load_messages lines).countP (roleIs "user")) ++ "\n" ++
            "Character messages: " ++
              toString ((load_messages lines).countP (roleIs "char")) ++ "\n\n") ++
           post)) := by
  constructor
  · rw [show load_messages lines = lines.filterMap lineParse from loadLoop_nil_eq lines,
      length_filterMap_countP]
    rw [show (fun a => (lineParse a).isSome) = parseableLine from funext lineParse_isSome]
  · intro hne hobj
    refine ⟨"# Analysis\n\n",
      "## First message\n" ++ pyStr (textDefault ((load_messages lines).headD Json.null)) ++
        "\n\n" ++ "## Last message\n" ++
        pyStr (textDefault ((load_messages lines).getLastD Json.null)) ++ "\n", ?_⟩
    rw [summarize_obj _ hne hobj]
    simp only [String.append_assoc]

/-- C1 witness: a one-line transcript with one `user` record. -/
theorem load_count_and_render_counts_witness :
    (load_messages ["\x7b\"role\":\"user\"\x7d"]).length =
        List.countP parseableLine ["\x7b\"role\":\"user\"\x7d"]
    ∧ ∃ pre post : String,
        summarize (load_messages ["\x7b\"role\":\"user\"\x7d"]) = Except.ok
          (pre ++
           ("Total messages: " ++
              toString (load_messages ["\x7b\"role\":\"user\"\x7d"]).length ++ "\n\n" ++
            "User messages: " ++
              toString ((load_messages ["\x7b\"role\":\"user\"\x7d"]).countP (roleIs "user")) ++
              "\n" ++
            "Character messages: " ++
              toString ((load_messages ["\x7b\"role\":\"user\"\x7d"]).countP (roleIs "char")) ++
              "\n\n") ++
           post) :=
  ⟨(load_count_and_render_counts ["\x7b\"role\":\"user\"\x7d"]).1,
   (load_count_and_render_counts ["\x7b\"role\":\"user\"\x7d"]).2
     (fun h => absurd (congrArg List.length h) (by decide)) (by decide)⟩

/-- C3: the formatter output is byte-for-byte fixed: a transcript with
zero parseable records renders exactly `"# Analysis\n\nNo messages
found."`, and a non-empty transcript of objects renders exactly the
non-empty template, blank lines, heading levels and the trailing
newline included. -/
theorem render_template_exact :
    (∀ lines : List String,
        (∀ l ∈ lines, pyStrip l = "" ∨ json_loads (pyStrip l) = none) →
        summarize (load_messages lines) = Except.ok "# Analysis\n\nNo messages found.")
    ∧ (∀ msgs : List Json, msgs ≠ [] → (∀ m ∈ msgs, m.isObj = true) →
        summarize msgs = Except.ok
          ("# Analysis\n\n" ++
           "Total messages: " ++ toString msgs.length ++ "\n\n" ++
           "User messages: " ++ toString (msgs.countP (roleIs "user")) ++ "\n" ++
           "Character messages: " ++ toString (msgs.countP (roleIs "char")) ++ "\n\n" ++
           "## First message\n" ++ pyStr (textDefault (msgs.headD Json.null)) ++ "\n\n" ++
           "## Last message\n" ++ pyStr (textDefault (msgs.getLastD Json.null)) ++ "\n")) := by
  constructor
  · intro lines h
    have hnil : load_messages lines = [] := by
      rw [show load_messages lines = lines.filterMap lineParse from loadLoop_nil_eq lines]
      refine List.filterMap_eq_nil_iff.mpr (fun a ha => ?_)
      rcases h a ha with hb | hj
      · simp [lineParse, hb]
      · simp [lineParse, hj]
    rw [hnil]
    rfl
  · exact fun msgs hne hobj => summarize_obj msgs hne hobj

/-- C3 witness: a transcript of one blank and one malformed line, and
a one-record transcript. -/
theorem render_template_exact_witness :
    summarize (load_messages ["", "not json"]) =
        Except.ok "# Analysis\n\nNo messages found."
    ∧ summarize [Json.obj [("role", Json.str "user"), ("text", Json.str "hi")]] =
        Except.ok
          ("# Analysis\n\n" ++
           "Total messages: " ++ toString (1 : Nat) ++ "\n\n" ++
           "User messages: " ++ toString (1 : Nat) ++ "\n" ++
           "Character messages: " ++ toString (0 : Nat) ++ "\n\n" ++
           "## First message\n" ++ "hi" ++ "\n\n" ++
           "## Last message\n" ++ "hi" ++ "\n") := by
  constructor
  · refine render_template_exact.1 ["", "not json"] ?_
    intro l hl
    rcases List.mem_cons.mp hl with rfl | hl2
    · exact Or.inl rfl
    · rcases List.mem_cons.mp hl2 with rfl | h3
      · exact Or.inr rfl
      · cases h3
  · exact render_template_exact.2 [Json.obj [("role", Json.str "user"), ("text", Json.str "hi")]]
      (fun h => List.noConfusion h) (by decide)

/-- C4: for a non-empty transcript of objects, the first- and
last-message texts rendered in the output equal the `text` field of the
first and last record (when it is a string), or the empty string when
the record has no `text` field. -/
theorem first_last_text_rendered (msgs : List Json) (hne : msgs ≠ [])
    (hobj : ∀ m ∈ msgs, m.isObj = true) :
    ∃ pre fT lT : String,
      summarize msgs = Except.ok
        (pre ++ "## First message\n" ++ fT ++ "\n\n" ++ "## Last message\n" ++ lT ++ "\n")
      ∧ (textField (msgs.headD Json.null) = none → fT = "")
      ∧ (∀ t, textField (msgs.headD Json.null) = some (Json.str t) → fT = t)
      ∧ (textField (msgs.getLastD Json.null) = none → lT = "")
      ∧ (∀ t, textField (msgs.getLastD Json.null) = some (Json.str t) → lT = t) := by
  refine ⟨"# Analysis\n\n" ++
      "Total messages: " ++ toString msgs.length ++ "\n\n" ++
      "User messages: " ++ toString (msgs.countP (roleIs "user")) ++ "\n" ++
      "Character messages: " ++ toString (msgs.countP (roleIs "char")) ++ "\n\n",
    pyStr (textDefault (msgs.headD Json.null)),
    pyStr (textDefault (msgs.getLastD Json.null)), ?_,
    pyStr_textDefault_none _,
    fun t ht => pyStr_textDefault_some _ t ht,
    pyStr_textDefault_none _,
    fun t ht => pyStr_textDefault_some _ t ht⟩
  rw [summarize_obj msgs hne hobj]

/-- C4 witness: first record has `text` `"a"`, last record has no
`text` field. -/
theorem first_last_text_rendered_witness :
    ∃ pre fT lT : String,
      summarize [Json.obj [("text", Json.str "a")], Json.obj []] = Except.ok
        (pre ++ "## First message\n" ++ fT ++ "\n\n" ++ "## Last message\n" ++ lT ++ "\n")
      ∧ (textField (([Json.obj [("text", Json.str "a")], Json.obj []]).headD Json.null) =
            none → fT = "")
      ∧ (∀ t, textField (([Json.obj [("text", Json.str "a")], Json.obj []]).headD Json.null) =
            some (Json.str t) → fT = t)
      ∧ (textField (([Json.obj [("text", Json.str "a")], Json.obj []]).getLastD Json.null) =
            none → lT = "")
      ∧ (∀ t, textField (([Json.obj [("text", Json.str "a")], Json.obj []]).getLastD Json.null) =
            some (Json.str t) → lT = t) :=
  first_last_text_rendered [Json.obj [("text", Json.str "a")], Json.obj []]
    (fun h => List.noConfusion h) (by decide)

/-- C5 counterexample: a transcript whose one line parses to the JSON
number `5` (a valid JSON value that is not an object) makes the
summarizer raise `AttributeError` (Python's `int` has no `.get`),
refuting the claim that any JSON value is accepted. -/
theorem summarize_nondict_attributeError :
    summarize [Json.num "5"] = Except.error PyErr.attributeError := rfl

/-- C5 (amended): the summarizer completes without raising whenever
every parsed record is a JSON object; absent `role` and `text` fields
are treated as default and no schema is enforced on object fields. -/
theorem summarize_ok_of_objects (msgs : List Json)
    (hobj : ∀ m ∈ msgs, m.isObj = true) :
    ∃ s, summarize msgs = Except.ok s := by
  rcases eq_or_ne msgs [] with rfl | hne
  · exact ⟨"# Analysis\n\nNo messages found.", rfl⟩
  · exact ⟨_, summarize_obj msgs hne hobj⟩

/-- C5 witness: objects with a missing `role`/`text` field and a
non-string `role` are still summarized without error. -/
theorem summarize_ok_of_objects_witness :
    ∃ s, summarize [Json.obj [], Json.obj [("role", Json.num "1")]] = Except.ok s :=
  summarize_ok_of_objects [Json.obj [], Json.obj [("role", Json.num "1")]] (by decide)

/-- C6: the CLI exits with status 1 and prints the usage line (leaving
the filesystem untouched) when the positional argument is missing,
exits with status 2 and prints a `File not found` message naming the
resolved path (filesystem untouched) when that path does not exist, and
exits with status 0 whenever the run completes. -/
theorem cli_exit_codes (expand : String → String) (argv : List String) (fs : FS) :
    (argv.length < 2 →
      pymain expand argv fs =
        Except.ok ⟨fs, ["Usage: python analyzer.py <transcript.jsonl>"], 1⟩)
    ∧ (2 ≤ argv.length → fsLookup fs (expand (argv.getD 1 "")) = none →
      pymain expand argv fs =
        Except.ok ⟨fs, ["File not found: " ++ expand (argv.getD 1 "")], 2⟩)
    ∧ (∀ content r, 2 ≤ argv.length →
        fsLookup fs (expand (argv.getD 1 "")) = some content →
        pymain expand argv fs = Except.ok r → r.exitCode = 0) := by
  refine ⟨fun h => by simp [pymain, h], fun hlen hnf => ?_, fun content r hlen hf hr => ?_⟩
  · have hnl : ¬ argv.length < 2 := Nat.not_lt.mpr hlen
    simp only [List.getD_eq_getElem?_getD] at hnf
    simp [pymain, hnl, hnf]
  · have hnl : ¬ argv.length < 2 := Nat.not_lt.mpr hlen
    simp only [List.getD_eq_getElem?_getD] at hf
    cases hs : summarize (load_messages (pySplitLines content)) with
    | error e =>
      have hp : pymain expand argv fs = Except.error e := by
        simp [pymain, hnl, hf, hs]
      rw [hp] at hr
      exact Except.noConfusion hr
    | ok s =>
      have hp : pymain expand argv fs = Except.ok
          ⟨fsWrite fs (joinPath (parentDir (expand (argv.getD 1 ""))) "summary.md") s,
           ["Wrote summary to " ++
             joinPath (parentDir (expand (argv.getD 1 ""))) "summary.md"], 0⟩ := by
        simp [pymain, hnl, hf, hs]
      rw [hp] at hr
      injection hr with h
      subst h
      rfl

/-- C6 witness: a missing argument, a nonexistent path, and a
successful run on an empty file. -/
theorem cli_exit_codes_witness :
    pymain id ["analyzer.py"] [] =
        Except.ok ⟨[], ["Usage: python analyzer.py <transcript.jsonl>"], 1⟩
    ∧ pymain id ["analyzer.py", "x"] [] =
        Except.ok ⟨[], ["File not found: " ++ id (["analyzer.py", "x"].getD 1 "")], 2⟩
    ∧ (RunResult.mk [("in.jsonl", ""), ("summary.md", "# Analysis\n\nNo messages found.")]
        ["Wrote summary to summary.md"] 0).exitCode = 0 :=
  ⟨(cli_exit_codes id ["analyzer.py"] []).1 (by decide),
   (cli_exit_codes id ["analyzer.py", "x"] []).2.1 (by decide) rfl,
   (cli_exit_codes id ["analyzer.py", "in.jsonl"] [("in.jsonl", "")]).2.2 ""
     (RunResult.mk [("in.jsonl", ""), ("summary.md", "# Analysis\n\nNo messages found.")]
       ["Wrote summary to summary.md"] 0) (by decide) rfl (by rfl)⟩

/-- C7: a successful run writes the rendered summary to the fixed
filename `summary.md` in the input file's directory (overwriting
whatever was there: after the run, that path holds exactly the
summary), and prints the one confirmation line naming that path. -/
theorem cli_writes_summary (expand : String → String) (argv : List String) (fs : FS)
    (content s : String) (hlen : 2 ≤ argv.length)
    (hread : fsLookup fs (expand (argv.getD 1 "")) = some content)
    (hsum : summarize (load_messages (pySplitLines content)) = Except.ok s) :
    pymain expand argv fs = Except.ok
      ⟨fsWrite fs (joinPath (parentDir (expand (argv.getD 1 ""))) "summary.md") s,
       ["Wrote summary to " ++ joinPath (parentDir (expand (argv.getD 1 ""))) "summary.md"],
       0⟩
    ∧ fsLookup (fsWrite fs (joinPath (parentDir (expand (argv.getD 1 ""))) "summary.md") s)
        (joinPath (parentDir (expand (argv.getD 1 ""))) "summary.md") = some s := by
  have hnl : ¬ argv.length < 2 := Nat.not_lt.mpr hlen
  simp only [List.getD_eq_getElem?_getD] at hread
  exact ⟨by simp [pymain, hnl, hread, hsum], fsLookup_fsWrite_self fs _ s⟩

/-- C7 witness: running on an empty transcript file writes the
no-messages summary next to it. -/
theorem cli_writes_summary_witness :
    pymain id ["analyzer.py", "in.jsonl"] [("in.jsonl", "")] = Except.ok
      ⟨[("in.jsonl", ""), ("summary.md", "# Analysis\n\nNo messages found.")],
       ["Wrote summary to summary.md"], 0⟩
    ∧ fsLookup [("in.jsonl", ""), ("summary.md", "# Analysis\n\nNo messages found.")]
        "summary.md" = some "# Analysis\n\nNo messages found." :=
  cli_writes_summary id ["analyzer.py", "in.jsonl"] [("in.jsonl", "")] ""
    "# Analysis\n\nNo messages found." (by decide) rfl rfl

/-- C8: the five-line example transcript (two records, a blank line, a
malformed line, one more record) yields total 3, user 2, char 1, first
message `hi`, last message `bye`. -/
theorem example_transcript_pipeline :
    load_messages
        ["\x7b\"role\":\"user\",\"text\":\"hi\"\x7d",
         "\x7b\"role\":\"char\",\"text\":\"hello\"\x7d",
         "",
         "not json",
         "\x7b\"role\":\"user\",\"text\":\"bye\"\x7d"] =
      [Json.obj [("role", Json.str "user"), ("text", Json.str "hi")],
       Json.obj [("role", Json.str "char"), ("text", Json.str "hello")],
       Json.obj [("role", Json.str "user"), ("text", Json.str "bye")]]
    ∧ (load_messages
        ["\x7b\"role\":\"user\",\"text\":\"hi\"\x7d",
         "\x7b\"role\":\"char\",\"text\":\"hello\"\x7d",
         "",
         "not json",
         "\x7b\"role\":\"user\",\"text\":\"bye\"\x7d"]).length = 3
    ∧ (load_messages
        ["\x7b\"role\":\"user\",\"text\":\"hi\"\x7d",
         "\x7b\"role\":\"char\",\"text\":\"hello\"\x7d",
         "",
         "not json",
         "\x7b\"role\":\"user\",\"text\":\"bye\"\x7d"]).countP (roleIs "user") = 2
    ∧ (load_messages
        ["\x7b\"role\":\"user\",\"text\":\"hi\"\x7d",
         "\x7b\"role\":\"char\",\"text\":\"hello\"\x7d",
         "",
         "not json",
         "\x7b\"role\":\"user\",\"text\":\"bye\"\x7d"]).countP (roleIs "char") = 1
    ∧ summarize (load_messages
        ["\x7b\"role\":\"user\",\"text\":\"hi\"\x7d",
         "\x7b\"role\":\"char\",\"text\":\"hello\"\x7d",
         "",
         "not json",
         "\x7b\"role\":\"user\",\"text\":\"bye\"\x7d"]) = Except.ok
        "# Analysis\n\nTotal messages: 3\n\nUser messages: 2\nCharacter messages: 1\n\n## First message\nhi\n\n## Last message\nbye\n" :=
  ⟨rfl, rfl, rfl, rfl, rfl⟩

/-- C9: a second run on the same input (whose content the first run did
not change) reproduces the first run byte for byte: same summary
content at the same path, same message, same exit status, and the
filesystem is unchanged by the second run. -/
theorem rerun_byte_identical (expand : String → String) (argv : List String)
    (fs : FS) (r : RunResult)
    (h1 : pymain expand argv fs = Except.ok r) (h0 : r.exitCode = 0)
    (hin : fsLookup r.fs (expand (argv.getD 1 "")) =
      fsLookup fs (expand (argv.getD 1 ""))) :
    pymain expand argv r.fs = Except.ok r := by
  by_cases hlen : argv.length < 2
  · have hp : pymain expand argv fs =
        Except.ok ⟨fs, ["Usage: python analyzer.py <transcript.jsonl>"], 1⟩ := by
      simp [pymain, hlen]
    rw [hp] at h1
    injection h1 with h
    subst h
    simp at h0
  · cases hf : fsLookup fs (expand (argv.getD 1 "")) with
    | none =>
      have hp : pymain expand argv fs =
          Except.ok ⟨fs, ["File not found: " ++ expand (argv.getD 1 "")], 2⟩ := by
        simp only [List.getD_eq_getElem?_getD] at hf
        simp [pymain, hlen, hf]
      rw [hp] at h1
      injection h1 with h
      subst h
      simp at h0
    | some content =>
      cases hs : summarize (load_messages (pySplitLines content)) with
      | error e =>
        have hp : pymain expand argv fs = Except.error e := by
          simp only [List.getD_eq_getElem?_getD] at hf
          simp [pymain, hlen, hf, hs]
        rw [hp] at h1
        exact Except.noConfusion h1
      | ok s =>
        have hp : pymain expand argv fs = Except.ok
            ⟨fsWrite fs (joinPath (parentDir (expand (argv.getD 1 ""))) "summary.md") s,
             ["Wrote summary to " ++
               joinPath (parentDir (expand (argv.getD 1 ""))) "summary.md"], 0⟩ := by
          simp only [List.getD_eq_getElem?_getD] at hf
          simp [pymain, hlen, hf, hs]
        rw [hp] at h1
        injection h1 with h
        subst h
        have hf2 : fsLookup
            (fsWrite fs (joinPath (parentDir (expand (argv.getD 1 ""))) "summary.md") s)
            (expand (argv.getD 1 "")) = some content := hin.trans hf
        simp only [List.getD_eq_getElem?_getD] at hf2
        simp [pymain, hlen, hf2, hs, fsWrite_fsWrite_self]

/-- C9 witness: rerunning on a one-record transcript after a first run
reproduces the first run's result exactly. -/
theorem rerun_byte_identical_witness :
    pymain id ["analyzer.py", "d/in.jsonl"]
        [("d/in.jsonl", "\x7b\x7d"),
         ("d/summary.md",
          "# Analysis\n\nTotal messages: 1\n\nUser messages: 0\nCharacter messages: 0\n\n## First message\n\n\n## Last message\n\n")] =
      Except.ok
        ⟨[("d/in.jsonl", "\x7b\x7d"),
          ("d/summary.md",
           "# Analysis\n\nTotal messages: 1\n\nUser messages: 0\nCharacter messages: 0\n\n## First message\n\n\n## Last message\n\n")],
         ["Wrote summary to d/summary.md"], 0⟩ :=
  rerun_byte_identical id ["analyzer.py", "d/in.jsonl"] [("d/in.jsonl", "\x7b\x7d")]
    ⟨[("d/in.jsonl", "\x7b\x7d"),
      ("d/summary.md",
       "# Analysis\n\nTotal messages: 1\n\nUser messages: 0\nCharacter messages: 0\n\n## First message\n\n\n## Last message\n\n")],
     ["Wrote summary to d/summary.md"], 0⟩
    (by rfl) rfl (by rfl)

/-- C10: each line is stripped before both the blank test and parsing,
so a line whose stripped core parses as JSON still loads (and counts as
parseable) when surrounded by extra whitespace. -/
theorem strip_whitespace_then_parse (w1 w2 l : String) (v : Json)
    (h1 : ∀ c ∈ w1.data, pyIsSpace c = true)
    (h2 : ∀ c ∈ w2.data, pyIsSpace c = true)
    (hp : json_loads (pyStrip l) = some v) :
    load_messages [w1 ++ l ++ w2] = [v]
    ∧ parseableLine (w1 ++ l ++ w2) = true := by
  have hs := pyStrip_pad w1 w2 l h1 h2
  have hne : pyStrip l ≠ "" := by
    intro h
    rw [h] at hp
    exact Option.noConfusion hp
  constructor
  · simp [load_messages, loadLoop, hs, hne, hp]
  · simp [parseableLine, hs, hne, hp]

/-- C10 witness: `" 5"` surrounded by a space and a tab still loads as
the number `5`. -/
theorem strip_whitespace_then_parse_witness :
    load_messages [" " ++ " 5" ++ "\t "] = [Json.num "5"]
    ∧ parseableLine (" " ++ " 5" ++ "\t ") = true :=
  strip_whitespace_then_parse " " "\t " " 5" (Json.num "5") (by decide) (by decide) rfl

end Analyzer
